import Mathlib

/-!
Shallow embedding of the browser-resolution and session-lifecycle layer of
the selenium-assistant repository (src/local-browser.js, src/index.js).

JavaScript exceptions are modelled with `Except JsErr`; JavaScript truthiness
of the values that the code tests (`!executablePath`,
`if (this._rawVerstionString)`, `if (minVersion)`, `if (releaseNames[release])`,
`if (buildResult.then)`) is modelled explicitly.  Methods that concrete
subclasses override (getExecutablePath, getVersionNumber, isBlackListed,
_getMinSupportedVersion, getSeleniumDriverBuilder) are fields of the entity
record holding the outcome the override would produce, since each is
deterministic for a fixed entity and environment.
-/

/-- A thrown JavaScript error, identified by its message. -/
inductive JsErr : Type
| err (msg : String)
deriving DecidableEq

instance {ε α : Type} [DecidableEq ε] [DecidableEq α] : DecidableEq (Except ε α) :=
fun a b =>
  match a, b with
  | .ok x, .ok y =>
    if h : x = y then .isTrue (by rw [h]) else .isFalse (by intro hc; cases hc; exact h rfl)
  | .error x, .error y =>
    if h : x = y then .isTrue (by rw [h]) else .isFalse (by intro hc; cases hc; exact h rfl)
  | .ok _, .error _ => .isFalse (by intro hc; cases hc)
  | .error _, .ok _ => .isFalse (by intro hc; cases hc)

/-- JavaScript truthiness of a string-or-null value: null and the empty
string are falsy, every other string is truthy.  Used for the
`if (!executablePath)` tests in local-browser.js. -/
def strOptTruthy : Option String → Bool
| none => false
| some s => s != ""

/-- Result of the virtual call `this._getMinSupportedVersion()`: the base
class returns the literal `false` (no policy); subclasses return a number.
The caller tests the result with JavaScript truthiness (`if (minVersion)`). -/
inductive MinVersionVal : Type
| noPolicy
| policy (n : Int)
deriving DecidableEq

/-- JavaScript truthiness of the `_getMinSupportedVersion()` result:
`false` is falsy, a number is truthy unless it is 0. -/
def minVersionTruthy : MinVersionVal → Bool
| .noPolicy => false
| .policy n => n != 0

/-- The numeric value of a minimum-version policy (0 when there is none;
only read under `minVersionTruthy`). -/
def minVersionValue : MinVersionVal → Int
| .noPolicy => 0
| .policy n => n

/-- One LocalBrowser entity, as seen by `isValid()` in local-browser.js.
Each field is the outcome of the corresponding (possibly overridden) call
for this fixed entity in a fixed environment:
`executablePath` = `this.getExecutablePath()` (subclass override; the
abstract base throws, so the result is `Except`-valued);
`lstatResult` = `fs.lstatSync(executablePath)` at the resolved path;
`minSupportedVersion` = `this._getMinSupportedVersion()`;
`versionNumber` = `this.getVersionNumber()` (subclass override);
`blackListed` = `this.isBlackListed()` (subclass override). -/
structure LocalBrowser : Type where
  executablePath : Except JsErr (Option String)
  lstatResult : Except JsErr Unit
  minSupportedVersion : Except JsErr MinVersionVal
  versionNumber : Except JsErr Int
  blackListed : Except JsErr Bool
deriving DecidableEq

/-- Modelled from the spec: the concrete subclass files (chrome.js etc.) are
not under src/; per the spec, their isBlackListed override consults the
blacklist table keyed by the resolved version number. -/
def blacklistLookup (table : List Int) (version : Int) : Bool :=
  table.contains version

/-- The body of the `try` block of `isValid()` (local-browser.js lines
86-102): lstat the path, then, if a minimum-version policy is truthy,
return `getVersionNumber() >= minVersion` (the blacklist is not consulted
on this path); otherwise return false if blacklisted, else true.  Any
error escaping this block is caught by the `catch` in `isValid`. -/
def LocalBrowser.isValidTryBlock (b : LocalBrowser) : Except JsErr Bool := do
  let _ ← b.lstatResult
  let mv ← b.minSupportedVersion
  if minVersionTruthy mv then
    let v ← b.versionNumber
    pure (v ≥ minVersionValue mv)
  else
    let bl ← b.blackListed
    if bl then pure false else pure true

/-- `isValid()` (local-browser.js lines 80-105).  `getExecutablePath()` is
called OUTSIDE the try block, so an error from it propagates to the caller;
a falsy path returns false; errors inside the try block are swallowed by
the catch (NOOP) and the method then returns false. -/
def LocalBrowser.isValid (b : LocalBrowser) : Except JsErr Bool :=
  match b.executablePath with
  | .error e => .error e
  | .ok p =>
    if strOptTruthy p then
      match b.isValidTryBlock with
      | .ok v => .ok v
      | .error _ => .ok false
    else
      .ok false

/-- `isValid()` as a total Boolean, defined only through `isValid`:
true exactly when the call returns (rather than throws) true. -/
def LocalBrowser.isValidTrue (b : LocalBrowser) : Bool :=
  match b.isValid with
  | .ok true => true
  | _ => false

/-- C1 counterexample entity: executable resolves and exists, a
minimum-supported-version policy of 55 is configured, the resolved version
60 meets it, and version 60 is in the blacklist table. -/
def cexBlacklistedWithPolicy : LocalBrowser :=
  { executablePath := .ok (some "/usr/bin/google-chrome")
    lstatResult := .ok ()
    minSupportedVersion := .ok (.policy 55)
    versionNumber := .ok 60
    blackListed := .ok (blacklistLookup [60] 60) }

/-- C1 amended-claim witness entity: same blacklisted browser but with the
default (absent) minimum-version policy. -/
def cexBlacklistedNoPolicy : LocalBrowser :=
  { executablePath := .ok (some "/usr/bin/google-chrome")
    lstatResult := .ok ()
    minSupportedVersion := .ok .noPolicy
    versionNumber := .ok 60
    blackListed := .ok (blacklistLookup [60] 60) }

/-- C3 counterexample entity: `getExecutablePath()` throws (as the abstract
base class version does, with this very message); every other probe is
benign. -/
def cexPathThrows : LocalBrowser :=
  { executablePath := .error (.err "getExecutablePath() must be overriden by subclasses")
    lstatResult := .ok ()
    minSupportedVersion := .ok .noPolicy
    versionNumber := .ok (-1)
    blackListed := .ok false }

/-- The entity field `this._rawVerstionString` (spelled as in the source):
`undef` before the first probing call; after a probe it holds either the
captured stdout string or null (the probe failed). -/
inductive RawCache : Type
| undef
| nullCached
| cached (s : String)
deriving DecidableEq

/-- JavaScript truthiness of `this._rawVerstionString` as tested by the
guard `if (this._rawVerstionString)`: only a non-empty string is truthy
(undefined, null and the empty string are all falsy). -/
def rawCacheTruthy : RawCache → Bool
| .cached s => s != ""
| _ => false

/-- The string-or-null value the truthy cache denotes. -/
def rawCacheValue : RawCache → Option String
| .cached s => some s
| _ => none

/-- Environment of one `getRawVersionString()` call: the path returned by
`getExecutablePath()` and the outcome of
`execSync(executablePath --version).toString()` were it run now. -/
structure VersionProbeEnv : Type where
  executablePath : Option String
  execResult : Except JsErr String
deriving DecidableEq

/-- `getRawVersionString()` (local-browser.js lines 129-149) as a state
transformer on the `_rawVerstionString` field.  Returns (returned value,
new cache state, number of external process probes performed by this call).
If the cache is truthy it is returned with no probe; if the executable path
is falsy, null is returned and the cache is not touched; otherwise the
cache is first set to null, then the probe runs inside try/catch: on
success the cache holds the captured string, on failure the catch is a
NOOP and the null written before the try remains; the cache is returned. -/
def LocalBrowser.getRawVersionString (env : VersionProbeEnv) (cache : RawCache) :
    Option String × RawCache × Nat :=
  if rawCacheTruthy cache then
    (rawCacheValue cache, cache, 0)
  else if strOptTruthy env.executablePath = false then
    (none, cache, 0)
  else
    match env.execResult with
    | .ok s => (some s, .cached s, 1)
    | .error _ => (none, .nullCached, 1)

/-- Two consecutive `getRawVersionString()` calls on a fresh entity
(cache starts undefined), each in its own environment.  Returns the two
returned values and the total number of external process probes. -/
def twoRawVersionCalls (env1 env2 : VersionProbeEnv) :
    Option String × Option String × Nat :=
  let r1 := LocalBrowser.getRawVersionString env1 .undef
  let r2 := LocalBrowser.getRawVersionString env2 r1.2.1
  (r1.1, r2.1, r1.2.2 + r2.2.2)

/-- C2 counterexample environment: the executable path resolves but the
version probe fails (execSync throws), e.g. the binary refuses the
`--version` flag. -/
def cexProbeFails : VersionProbeEnv :=
  { executablePath := some "/usr/bin/firefox"
    execResult := .error (.err "Command failed") }

/-- The value the builder `build()` call produced (when it did not throw):
null and undefined make the subsequent `buildResult.then` property access
throw a TypeError; otherwise the value either has a truthy `then` property
(a thenable, carrying an identifier) or not (a plain value). -/
inductive BuildVal : Type
| jsNull
| jsUndefined
| thenable (id : Nat)
| plain (id : Nat)
deriving DecidableEq

/-- The builder object returned by `getSeleniumDriverBuilder()`: its
`build()` call either throws or produces a value. -/
structure Builder : Type where
  build : Except JsErr BuildVal
deriving DecidableEq

/-- Entity fields consulted by `getSeleniumDriver()` (local-browser.js
lines 183-210).  `driverModule` models `this.getDriverModule()`, a plain
accessor on the Browser base class returning the driver module name or a
falsy value; `requireResult` is the outcome of `require(...)` on that
module (plus the opera PATH fixup, whose only effect is on the
environment); `browserId` is `this.getId()`; `seleniumDriverBuilder` is
the outcome of the virtual `getSeleniumDriverBuilder()` call (the abstract
base version throws). -/
structure SeleniumDriverEnv : Type where
  driverModule : Option String
  requireResult : Except JsErr Unit
  browserId : String
  seleniumDriverBuilder : Except JsErr Builder
deriving DecidableEq

/-- What `getSeleniumDriver()` hands back to its caller: the thenable
build result passed through unchanged, a plain build result wrapped by
`Promise.resolve`, or a promise rejected with the caught error. -/
inductive DriverResult : Type
| pending (id : Nat)
| resolvedPromise (id : Nat)
| rejectedPromise (e : JsErr)
deriving DecidableEq

/-- TypeError raised by accessing `.then` on a null build result. -/
def thenAccessOnNull : JsErr := .err "TypeError: cannot read property then of null"

/-- TypeError raised by accessing `.then` on an undefined build result. -/
def thenAccessOnUndefined : JsErr := .err "TypeError: cannot read property then of undefined"

/-- The first block of `getSeleniumDriver()` (lines 184-198): when the
driver module name is truthy, `require` it inside try/catch (the opera
branch only appends to process.env.PATH); the catch is a NOOP, so the
block always completes and contributes nothing to the return value. -/
def requireDriverModuleStep (env : SeleniumDriverEnv) : Unit :=
  match env.driverModule with
  | none => ()
  | some m =>
    if m = "" then ()
    else
      match env.requireResult with
      | .ok _ => ()
      | .error _ => ()

/-- `getSeleniumDriver()` (local-browser.js lines 183-210).  After the
swallowed driver-module block, the builder is obtained and `build()`
invoked inside try/catch: any caught error becomes a rejected promise;
a build result with a truthy `then` is returned as is; accessing `.then`
on null/undefined throws and is caught into a rejected promise; any other
build result is wrapped with `Promise.resolve`.  The outer `Except` layer
is the synchronous-throw channel of the method itself. -/
def LocalBrowser.getSeleniumDriver (env : SeleniumDriverEnv) : Except JsErr DriverResult :=
  let _ := requireDriverModuleStep env
  match env.seleniumDriverBuilder with
  | .error e => .ok (.rejectedPromise e)
  | .ok builder =>
    match builder.build with
    | .error e => .ok (.rejectedPromise e)
    | .ok .jsNull => .ok (.rejectedPromise thenAccessOnNull)
    | .ok .jsUndefined => .ok (.rejectedPromise thenAccessOnUndefined)
    | .ok (.thenable i) => .ok (.pending i)
    | .ok (.plain i) => .ok (.resolvedPromise i)

/-- The JavaScript value of `config._prettyName` as classified by the
constructor guard `typeof config._prettyName !== string`. -/
inductive JsVal : Type
| str (s : String)
| nonString
deriving DecidableEq

/-- The constructor guard: `_prettyName` must be a string of positive
length. -/
def validPrettyName : JsVal → Bool
| .str s => s != ""
| .nonString => false

/-- The template-literal coercion applied by the constructor. -/
def prettyNameString : JsVal → String
| .str s => s
| .nonString => ""

/-- The instance state a successful LocalBrowser constructor run leaves
behind (the fields the constructor assigns). -/
structure LocalBrowserState : Type where
  _prettyName : String
  _release : String
  _blacklist : List Int
deriving DecidableEq

/-- The property read `releaseNames[release]` on the object returned by
the subclass static `getPrettyReleaseNames()`, modelled as an association
list. -/
def lookupReleaseName (names : List (String × String)) (release : String) : Option String :=
  (names.find? (fun p => p.1 == release)).map Prod.snd

/-- The LocalBrowser constructor (local-browser.js lines 38-59).  It throws
if `config._prettyName` is not a non-empty string, then throws if the
release is none of the three literals, then calls the subclass static
`getPrettyReleaseNames()` (Except-valued: the abstract base version
throws) and appends its truthy display name for this release, if any, to
the pretty name, and finally stores release and blacklist. -/
def LocalBrowser.construct (prettyNameVal : JsVal) (release : String)
    (prettyReleaseNames : Except JsErr (List (String × String)))
    (blacklist : List Int) : Except JsErr LocalBrowserState :=
  if validPrettyName prettyNameVal = false then
    .error (.err "Invalid prettyName value: ")
  else if release != "stable" && release != "beta" && release != "unstable" then
    .error (.err "Unexpected browser release given: ")
  else
    match prettyReleaseNames with
    | .error e => .error e
    | .ok names =>
      let base := prettyNameString prettyNameVal
      let pn :=
        match lookupReleaseName names release with
        | some displayName => if displayName != "" then base ++ " " ++ displayName else base
        | none => base
      .ok { _prettyName := pn, _release := release, _blacklist := blacklist }

/-- `getReleaseName()` (local-browser.js lines 228-230): returns the stored
`_release`. -/
def LocalBrowser.getReleaseName (st : LocalBrowserState) : String :=
  st._release

/-- The `webdriveBrowsers.filter((b) => b.isValid())` step of
`getLocalBrowsers()` (index.js lines 120-123): an exception thrown by any
`isValid()` call propagates out of the filter. -/
def filterValidBrowsers : List LocalBrowser → Except JsErr (List LocalBrowser)
| [] => .ok []
| b :: rest =>
  match b.isValid with
  | .error e => .error e
  | .ok true =>
    match filterValidBrowsers rest with
    | .ok r => .ok (b :: r)
    | .error e => .error e
  | .ok false => filterValidBrowsers rest

/-- `getLocalBrowsers()` (index.js lines 115-126), parametrised by
`process.platform` and by the list that
`browserManager.getSupportedBrowsers()` returns (browser-manager.js is not
under src/; per the spec it constructs every known local variant across
all installed releases).  Throws on a platform that is neither darwin nor
linux, otherwise filters the supported browsers by `isValid()`. -/
def SeleniumAssistant.getLocalBrowsers (platform : String)
    (supported : List LocalBrowser) : Except JsErr (List LocalBrowser) :=
  if platform != "darwin" && platform != "linux" then
    .error (.err "Sorry this library only supports OS X and Linux.")
  else
    filterValidBrowsers supported

/-- Behaviour of the `driver.quit()` call made inside the promise executor
of `killWebDriver`: it can throw synchronously, return a value with no
usable `then` (so that `.then(resolve, resolve)` throws a TypeError inside
the executor), return a promise that settles (fulfilled or rejected) after
`t` milliseconds, or return a promise that never settles. -/
inductive QuitBehavior : Type
| throwsSync (e : JsErr)
| returnsNonThenable
| settles (fulfilled : Bool) (t : Nat)
| hangs
deriving DecidableEq

/-- The `quit` property of the driver object, as tested by
`!driver.quit || typeof driver.quit !== 'function'`. -/
inductive QuitProp : Type
| absent
| nonFunction
| fn (q : QuitBehavior)
deriving DecidableEq

/-- The argument passed to `killWebDriver`, as classified by its guards:
undefined, null, or an object with some `quit` property shape. -/
inductive Driver : Type
| jsNull
| jsUndefined
| obj (quit : QuitProp)
deriving DecidableEq

/-- How the promise returned by `killWebDriver` finally settles. -/
inductive KillOutcome : Type
| fulfilled
| rejected (msg : String)
deriving DecidableEq

/-- The message of the error `killWebDriver` rejects with when the driver
has no usable quit method (index.js lines 266-267). -/
def quitErrorMessage : String := "Unable to find a quit method on the web driver."

/-- The grace period raced against `driver.quit()` (index.js line 274). -/
def quitGraceMs : Nat := 2000

/-- The settle period waited after the race (index.js line 283). -/
def quitSettleMs : Nat := 2000

/-- The message carried by a thrown JsErr. -/
def jsErrMessage : JsErr → String
| .err m => m

/-- `killWebDriver(driver)` (index.js lines 260-286) under a discrete-time
semantics; returns the final settlement of the returned promise and the
elapsed milliseconds until it settles.  Undefined/null resolve at once.
A missing or non-function `quit` rejects at once with `quitErrorMessage`.
Otherwise the executor starts a 2000 ms timeout whose firing resolves the
first promise, and calls `driver.quit()`: if that call throws, or
`.then(resolve, resolve)` on its non-thenable result throws, the executor
throws and the first promise rejects immediately, which propagates (the
chained `.then` has no rejection handler).  If `quit()` returns a promise
settling at time `t`, `.then(resolve, resolve)` resolves the first promise
at `min 2000 t` whether `quit` fulfilled or rejected; if it never settles,
the timeout resolves it at 2000.  The continuation then clears the timeout
and waits a further fixed 2000 ms before fulfilling. -/
def SeleniumAssistant.killWebDriver : Driver → KillOutcome × Nat
| .jsNull => (.fulfilled, 0)
| .jsUndefined => (.fulfilled, 0)
| .obj .absent => (.rejected quitErrorMessage, 0)
| .obj .nonFunction => (.rejected quitErrorMessage, 0)
| .obj (.fn (.throwsSync e)) => (.rejected (jsErrMessage e), 0)
| .obj (.fn .returnsNonThenable) =>
  (.rejected "TypeError: cannot read property then of quit result", 0)
| .obj (.fn (.settles _ t)) => (.fulfilled, min quitGraceMs t + quitSettleMs)
| .obj (.fn .hangs) => (.fulfilled, quitGraceMs + quitSettleMs)

/-- C3 / C8 witness entity: path resolves, nothing is blacklisted, no
minimum-version policy; a perfectly usable browser. -/
def cexPathOkPlain : LocalBrowser :=
  { executablePath := .ok (some "/usr/bin/firefox")
    lstatResult := .ok ()
    minSupportedVersion := .ok .noPolicy
    versionNumber := .ok 52
    blackListed := .ok false }

/-- A sample result of `browserManager.getSupportedBrowsers()`: one usable
browser and one blacklisted one. -/
def supportedSample : List LocalBrowser :=
  [cexPathOkPlain, cexBlacklistedNoPolicy]

/-- A version-probe environment whose probe succeeds. -/
def envProbeOk : VersionProbeEnv :=
  { executablePath := some "/usr/bin/firefox"
    execResult := .ok "Mozilla Firefox 52.0" }

/-- Helper: whenever `getExecutablePath()` returns (rather than throws),
`isValid()` also returns: every later step sits inside the try block whose
catch turns any error into the final `return false`. -/
theorem isValid_ok_of_path_ok (b : LocalBrowser) (p : Option String)
    (hp : b.executablePath = .ok p) : ∃ v, LocalBrowser.isValid b = .ok v := by
  unfold LocalBrowser.isValid
  rw [hp]
  by_cases ht : strOptTruthy p = true
  · simp only [ht, if_true]
    cases h : b.isValidTryBlock with
    | ok v => exact ⟨v, rfl⟩
    | error e => exact ⟨false, rfl⟩
  · simp [ht]

/-- Claim C1 counterexample: an entity whose executable resolves and
exists, whose version 60 is in the blacklist table, and which carries a
minimum-supported-version policy of 55 that version 60 meets — yet
`isValid()` returns true, because the minimum-version branch returns
without ever consulting the blacklist. -/
theorem c1_counterexample :
    blacklistLookup [60] 60 = true ∧
    cexBlacklistedWithPolicy.blackListed = .ok true ∧
    cexBlacklistedWithPolicy.minSupportedVersion = .ok (.policy 55) ∧
    cexBlacklistedWithPolicy.versionNumber = .ok 60 ∧ (60 : Int) ≥ 55 ∧
    LocalBrowser.isValid cexBlacklistedWithPolicy = .ok true := by
  refine ⟨rfl, by decide, rfl, rfl, by decide, by decide⟩

/-- Claim C1 (amended): for every local browser entity whose executable
path resolves to a truthy value and exists on disk and whose
`isBlackListed()` probe reports true, `isValid()` returns false PROVIDED
no minimum-supported-version policy is configured (the policy getter
returns its default false); when a policy is configured, the blacklist is
not consulted and validity is decided by the version comparison alone. -/
theorem isValid_false_of_blacklisted_noPolicy :
    ∀ (b : LocalBrowser) (p : Option String),
    b.executablePath = .ok p →
    b.lstatResult = .ok () →
    b.minSupportedVersion = .ok .noPolicy →
    b.blackListed = .ok true →
    LocalBrowser.isValid b = .ok false := by
  intro b p hp hl hm hb
  unfold LocalBrowser.isValid
  rw [hp]
  by_cases ht : strOptTruthy p = true
  · have htry : b.isValidTryBlock = .ok false := by
      unfold LocalBrowser.isValidTryBlock
      rw [hl, hm, hb]
      rfl
    simp [ht, htry]
  · simp [ht]

/-- Claim C1 witness: the amended theorem applied to the concrete
blacklisted, policy-free entity. -/
theorem c1_witness : LocalBrowser.isValid cexBlacklistedNoPolicy = .ok false :=
  isValid_false_of_blacklisted_noPolicy cexBlacklistedNoPolicy
    (some "/usr/bin/google-chrome") rfl rfl rfl (by decide)

/-- Claim C2 counterexample: with an entity whose executable resolves but
whose version probe fails, two consecutive `getRawVersionString()` calls
run the external process twice — the null cached by the first call is
falsy, so the `if (this._rawVerstionString)` guard does not short-circuit
the second call. -/
theorem c2_counterexample :
    (twoRawVersionCalls cexProbeFails cexProbeFails).2.2 = 2 ∧
    ¬ (twoRawVersionCalls cexProbeFails cexProbeFails).2.2 ≤ 1 := by
  decide

/-- Claim C2 (amended): when the first probe succeeds with a non-empty
string, a second `getRawVersionString()` call performs no further probe
and both calls return that identical string; but when the first probe
fails, the cached value is null and falsy, so the second call re-invokes
the external process (two probes in total, both calls returning null when
the environment is unchanged). -/
theorem getRawVersionString_caching :
    ∀ (env : VersionProbeEnv) (s : String),
    strOptTruthy env.executablePath = true →
    ((env.execResult = .ok s → s ≠ "" →
        twoRawVersionCalls env env = (some s, some s, 1)) ∧
     (∀ e, env.execResult = .error e →
        twoRawVersionCalls env env = (none, none, 2))) := by
  intro env s ht
  constructor
  · intro hok hs
    unfold twoRawVersionCalls LocalBrowser.getRawVersionString
    simp [ht, hok, rawCacheTruthy, rawCacheValue, hs]
  · intro e he
    unfold twoRawVersionCalls LocalBrowser.getRawVersionString
    simp [ht, he, rawCacheTruthy, rawCacheValue]

/-- Claim C2 witness: the amended theorem applied to a succeeding and to a
failing probe environment. -/
theorem c2_witness :
    twoRawVersionCalls envProbeOk envProbeOk =
      (some "Mozilla Firefox 52.0", some "Mozilla Firefox 52.0", 1) ∧
    twoRawVersionCalls cexProbeFails cexProbeFails = (none, none, 2) :=
  ⟨(getRawVersionString_caching envProbeOk "Mozilla Firefox 52.0" (by decide)).1
      rfl (by decide),
   (getRawVersionString_caching cexProbeFails "" (by decide)).2
      (.err "Command failed") rfl⟩

/-- Claim C3 counterexample: an entity whose `getExecutablePath()` throws
(exactly what the abstract base class does) makes `isValid()` throw that
very error instead of returning false — the path lookup happens before
the try block. -/
theorem c3_counterexample :
    LocalBrowser.isValid cexPathThrows =
      .error (.err "getExecutablePath() must be overriden by subclasses") := rfl

/-- Claim C3 (amended): `isValid()` never throws PROVIDED the
executable-path lookup itself returns rather than throws; every later
step (filesystem stat, version lookup, minimum-version getter, blacklist
lookup) runs inside the try block whose catch swallows any error into the
final `return false`.  An exception from `getExecutablePath()` itself
propagates to the caller. -/
theorem isValid_never_throws_of_path_ok :
    ∀ (b : LocalBrowser) (p : Option String),
    b.executablePath = .ok p →
    ∃ v, LocalBrowser.isValid b = .ok v :=
  fun b p hp => isValid_ok_of_path_ok b p hp

/-- Claim C3 witness: the amended theorem applied to a concrete entity
whose path lookup returns. -/
theorem c3_witness : ∃ v, LocalBrowser.isValid cexPathOkPlain = .ok v :=
  isValid_never_throws_of_path_ok cexPathOkPlain (some "/usr/bin/firefox") rfl

/-- Claim C4: `getSeleniumDriver()` never throws synchronously — it always
returns a promise; an error thrown while obtaining the builder or invoking
`build()` (including the TypeError from probing `.then` on a null or
undefined build result) is returned as a rejected promise; a thenable
build result is passed through unchanged, and a plain build result is
normalized with `Promise.resolve`. -/
theorem getSeleniumDriver_uniform_error_channel :
    ∀ (dm : Option String) (req : Except JsErr Unit) (bid : String),
    ((∀ b, ∃ r, LocalBrowser.getSeleniumDriver ⟨dm, req, bid, b⟩ = .ok r) ∧
     (∀ e, LocalBrowser.getSeleniumDriver ⟨dm, req, bid, .error e⟩ =
        .ok (.rejectedPromise e)) ∧
     (∀ e, LocalBrowser.getSeleniumDriver ⟨dm, req, bid, .ok ⟨.error e⟩⟩ =
        .ok (.rejectedPromise e)) ∧
     (LocalBrowser.getSeleniumDriver ⟨dm, req, bid, .ok ⟨.ok .jsNull⟩⟩ =
        .ok (.rejectedPromise thenAccessOnNull)) ∧
     (∀ i, LocalBrowser.getSeleniumDriver ⟨dm, req, bid, .ok ⟨.ok (.thenable i)⟩⟩ =
        .ok (.pending i)) ∧
     (∀ i, LocalBrowser.getSeleniumDriver ⟨dm, req, bid, .ok ⟨.ok (.plain i)⟩⟩ =
        .ok (.resolvedPromise i))) := by
  intro dm req bid
  refine ⟨?_, fun e => rfl, fun e => rfl, rfl, fun i => rfl, fun i => rfl⟩
  intro b
  match b with
  | .error e => exact ⟨.rejectedPromise e, rfl⟩
  | .ok ⟨.error e⟩ => exact ⟨.rejectedPromise e, rfl⟩
  | .ok ⟨.ok .jsNull⟩ => exact ⟨.rejectedPromise thenAccessOnNull, rfl⟩
  | .ok ⟨.ok .jsUndefined⟩ => exact ⟨.rejectedPromise thenAccessOnUndefined, rfl⟩
  | .ok ⟨.ok (.thenable i)⟩ => exact ⟨.pending i, rfl⟩
  | .ok ⟨.ok (.plain i)⟩ => exact ⟨.resolvedPromise i, rfl⟩

/-- Claim C5: for every driver handle that has a quit function, however its
quit call behaves — throwing, returning garbage, settling at any time, or
never settling — `killWebDriver` settles within the 2000 ms grace period
plus the 2000 ms settle period. -/
theorem killWebDriver_bounded :
    ∀ (q : QuitBehavior),
    (SeleniumAssistant.killWebDriver (.obj (.fn q))).2 ≤ quitGraceMs + quitSettleMs := by
  intro q
  cases q with
  | throwsSync e => simp [SeleniumAssistant.killWebDriver, quitGraceMs, quitSettleMs]
  | returnsNonThenable => simp [SeleniumAssistant.killWebDriver, quitGraceMs, quitSettleMs]
  | settles f t =>
    have h := Nat.min_le_left quitGraceMs t
    simp only [SeleniumAssistant.killWebDriver]
    omega
  | hangs => simp [SeleniumAssistant.killWebDriver]

/-- Claim C6: `killWebDriver(null)` and `killWebDriver(undefined)` both
resolve successfully and immediately, doing no termination work. -/
theorem killWebDriver_nullish_resolves :
    SeleniumAssistant.killWebDriver .jsNull = (.fulfilled, 0) ∧
    SeleniumAssistant.killWebDriver .jsUndefined = (.fulfilled, 0) :=
  ⟨rfl, rfl⟩

/-- Claim C7: for a non-null driver with an absent or non-function quit
property, `killWebDriver` returns a rejected promise (it does not resolve,
and the rejection is returned rather than thrown) carrying an error whose
message names the missing quit capability. -/
theorem killWebDriver_missing_quit_rejects :
    SeleniumAssistant.killWebDriver (.obj .absent) = (.rejected quitErrorMessage, 0) ∧
    SeleniumAssistant.killWebDriver (.obj .nonFunction) = (.rejected quitErrorMessage, 0) ∧
    (∃ before after, quitErrorMessage = before ++ "quit" ++ after) :=
  ⟨rfl, rfl, ⟨"Unable to find a ", " method on the web driver.", by decide⟩⟩

/-- Claim C10: when the quit call returns a promise that rejects at any
time `t`, `killWebDriver` still fulfils — `.then(resolve, resolve)` routes
the rejection into resolution — after `min 2000 t` plus the settle wait. -/
theorem killWebDriver_absorbs_quit_rejection :
    ∀ (t : Nat),
    SeleniumAssistant.killWebDriver (.obj (.fn (.settles false t))) =
      (.fulfilled, min quitGraceMs t + quitSettleMs) :=
  fun _ => rfl

/-- Helper: under the spec-mandated contract that concrete
`getExecutablePath` overrides return (null or a path) rather than throw,
the validity filter neither throws nor reorders: it returns exactly the
sublist of browsers whose `isValid()` returned true. -/
theorem filterValidBrowsers_eq_filter :
    ∀ (l : List LocalBrowser),
    (∀ b ∈ l, ∃ p, b.executablePath = .ok p) →
    filterValidBrowsers l = .ok (l.filter LocalBrowser.isValidTrue) := by
  intro l
  induction l with
  | nil => intro _; rfl
  | cons b rest ih =>
    intro h
    obtain ⟨p, hp⟩ := h b (by simp)
    obtain ⟨v, hv⟩ := isValid_ok_of_path_ok b p hp
    have hval : LocalBrowser.isValidTrue b = v := by
      unfold LocalBrowser.isValidTrue
      rw [hv]
      cases v <;> rfl
    have hrest := ih (fun x hx => h x (by simp [hx]))
    unfold filterValidBrowsers
    rw [hv, hrest]
    cases v with
    | true => simp [List.filter_cons, hval]
    | false => simp [List.filter_cons, hval]

/-- Claim C8: `getLocalBrowsers()` throws exactly when the host platform
is neither darwin nor linux; on a supported platform it returns exactly
the supported browsers whose `isValid()` is true, an unusable browser
being excluded rather than causing a throw.  The hypothesis records the
contract of the (not-in-src) concrete subclasses that path resolution
returns rather than throws. -/
theorem getLocalBrowsers_platform_gate :
    ∀ (platform : String) (supported : List LocalBrowser),
    (∀ b ∈ supported, ∃ p, b.executablePath = .ok p) →
    ((platform ≠ "darwin" ∧ platform ≠ "linux" →
       SeleniumAssistant.getLocalBrowsers platform supported =
         .error (.err "Sorry this library only supports OS X and Linux.")) ∧
     (platform = "darwin" ∨ platform = "linux" →
       SeleniumAssistant.getLocalBrowsers platform supported =
         .ok (supported.filter LocalBrowser.isValidTrue))) := by
  intro platform supported h
  constructor
  · intro hns
    have hc : (platform != "darwin" && platform != "linux") = true := by
      simp [bne_iff_ne, hns.1, hns.2]
    unfold SeleniumAssistant.getLocalBrowsers
    simp [hc]
  · intro hos
    have hc : (platform != "darwin" && platform != "linux") = false := by
      rcases hos with h1 | h1 <;> simp [h1]
    unfold SeleniumAssistant.getLocalBrowsers
    simp [hc, filterValidBrowsers_eq_filter supported h]

/-- Claim C8 witness: the theorem applied on an unsupported platform and
on linux with a concrete two-browser list. -/
theorem c8_witness :
    SeleniumAssistant.getLocalBrowsers "win32" supportedSample =
      .error (.err "Sorry this library only supports OS X and Linux.") ∧
    SeleniumAssistant.getLocalBrowsers "linux" supportedSample =
      .ok (supportedSample.filter LocalBrowser.isValidTrue) :=
  ⟨(getLocalBrowsers_platform_gate "win32" supportedSample
      (by intro b hb
          simp [supportedSample] at hb
          rcases hb with h | h <;> subst h <;> exact ⟨_, rfl⟩)).1
      (by constructor <;> decide),
   (getLocalBrowsers_platform_gate "linux" supportedSample
      (by intro b hb
          simp [supportedSample] at hb
          rcases hb with h | h <;> subst h <;> exact ⟨_, rfl⟩)).2
      (Or.inr rfl)⟩

/-- Claim C9: every state produced by a successful LocalBrowser
construction stores the release literal passed in, `getReleaseName()`
returns exactly it, and that literal is one of stable, beta, unstable;
constructing with any other release value throws immediately. -/
theorem construct_release_invariant :
    ∀ (pn : JsVal) (release : String)
      (names : Except JsErr (List (String × String))) (bl : List Int),
    ((∀ st, LocalBrowser.construct pn release names bl = .ok st →
        LocalBrowser.getReleaseName st = release ∧
        (release = "stable" ∨ release = "beta" ∨ release = "unstable")) ∧
     (release ≠ "stable" → release ≠ "beta" → release ≠ "unstable" →
        ∃ e, LocalBrowser.construct pn release names bl = .error e)) := by
  intro pn release names bl
  constructor
  · intro st hst
    unfold LocalBrowser.construct at hst
    split_ifs at hst with h1 h2
    have hrel : release = "stable" ∨ release = "beta" ∨ release = "unstable" := by
      by_contra hc
      push_neg at hc
      exact h2 (by simp [bne_iff_ne, hc.1, hc.2.1, hc.2.2])
    cases names with
    | error e => exact absurd hst (by simp)
    | ok ns =>
      simp only [] at hst
      injection hst with hx
      refine ⟨?_, hrel⟩
      rw [← hx]
      rfl
  · intro h1 h2 h3
    by_cases hv : validPrettyName pn = false
    · exact ⟨.err "Invalid prettyName value: ", by simp [LocalBrowser.construct, hv]⟩
    · have hc : (release != "stable" && release != "beta" && release != "unstable") = true := by
        simp [bne_iff_ne, h1, h2, h3]
      exact ⟨.err "Unexpected browser release given: ",
        by simp [LocalBrowser.construct, hv, hc]⟩

/-- Claim C9 witness: the theorem applied to a successful stable
construction and to a rejected release literal. -/
theorem c9_witness :
    (LocalBrowser.getReleaseName ⟨"Google Chrome", "stable", []⟩ = "stable" ∧
      ("stable" = "stable" ∨ "stable" = "beta" ∨ "stable" = "unstable")) ∧
    (∃ e, LocalBrowser.construct (.str "Google Chrome") "dev"
        (.ok [("beta", "Beta")]) [] = .error e) :=
  ⟨(construct_release_invariant (.str "Google Chrome") "stable"
      (.ok [("beta", "Beta"), ("unstable", "Dev")]) []).1
      ⟨"Google Chrome", "stable", []⟩ (by decide),
   (construct_release_invariant (.str "Google Chrome") "dev"
      (.ok [("beta", "Beta")]) []).2 (by decide) (by decide) (by decide)⟩
